import Mathlib

/-!
Shallow embedding of the invoice-reconciliation engine in
business/thread_verificacao.py (class ThreadVerificacaoNotas).

Monetary values are modelled as rationals; Python float modulo and floor
division (which follow the sign of the divisor) are modelled explicitly.
The entitlement calculator (CadastrarNotaBusiness.calcular_numeros_sorte)
and the ticket issuer (NumeroSorteBusiness.gerar_numeros_sorte) are external
collaborators and are taken as parameters; fallible store writes are driven
by explicit failure flags.  SQL transaction control (BEGIN TRANSACTION,
COMMIT, ROLLBACK) is modelled by a connection that holds the current store
state and an optional snapshot taken at BEGIN.
-/

namespace Sorteio

/-- Python modulo on rationals: a % b = a - b * floor (a / b); for a
positive divisor the result lies in [0, b). -/
def pymod (a b : ℚ) : ℚ := a - b * (⌊a / b⌋ : ℤ)

/-- Row of tab_nota: owning cpf, monetary value, status (1 = validated,
3 = cancelled), somar flag (true = pending, effect not yet applied). -/
structure Nota where
  cpf : String
  valor : ℚ
  status : Nat
  somar : Bool
deriving DecidableEq, Repr

/-- Row of tab_numero_sorte: ticket id, owning cpf, creation timestamp. -/
structure Numero where
  num_sorte : Nat
  cpf : String
  dt_cadastro : Nat
deriving DecidableEq, Repr

/-- The ledger store: customer rows (cpf, nullable saldo), invoice rows,
ticket rows. -/
structure DB where
  clientes : List (String × Option ℚ)
  notas : List Nota
  numeros : List Numero
deriving DecidableEq, Repr

/-- SELECT ISNULL(saldo, 0) FROM tab_cliente WHERE cpf = ?, with a missing
row also read back as 0 (saldo_atual stays 0 when no row is returned). -/
def lookupSaldo (db : DB) (cpf : String) : ℚ :=
  match db.clientes.find? (fun c => c.1 = cpf) with
  | none => 0
  | some (_, none) => 0
  | some (_, some v) => v

/-- UPDATE tab_cliente SET saldo = ? WHERE cpf = ?. -/
def updateSaldo (db : DB) (cpf : String) (v : ℚ) : DB :=
  { db with clientes := db.clientes.map (fun c => if c.1 = cpf then (c.1, some v) else c) }

/-- UPDATE tab_nota SET somar = 0 WHERE cpf = ? AND status = ? AND somar = 1. -/
def marcarNotas (db : DB) (cpf : String) (status : Nat) : DB :=
  { db with notas := db.notas.map (fun n =>
      if n.cpf = cpf ∧ n.status = status ∧ n.somar = true then
        { n with somar := false } else n) }

/-- A store connection: the current state plus the snapshot saved by
BEGIN TRANSACTION (none when no transaction is open). -/
structure Conn where
  cur : DB
  snapshot : Option DB
deriving Repr

/-- BEGIN TRANSACTION: save the current state as the snapshot. -/
def beginTransaction (c : Conn) : Conn := { c with snapshot := some c.cur }

/-- ROLLBACK: restore the snapshot, discarding writes made since BEGIN. -/
def rollback (c : Conn) : Conn := ⟨c.snapshot.getD c.cur, none⟩

/-- COMMIT: keep the current state, close the transaction. -/
def commit (c : Conn) : Conn := { c with snapshot := none }

/-- Apply a write statement to the connection inside the open transaction. -/
def applyWrite (c : Conn) (f : DB → DB) : Conn := { c with cur := f c.cur }

/-- Which fallible store operations report failure during one per-customer
transaction (a falsy result from execute_insert_update_delete, or success
= False from the ticket issuer). -/
structure FailureSpec where
  issuerFails : Bool
  saldoFails : Bool
  notasFails : Bool
  deleteFails : Bool
deriving DecidableEq, Repr

/-- The all-success failure specification. -/
def noFail : FailureSpec := ⟨false, false, false, false⟩

/-- Outcome of _processar_cliente: final store state plus a trace of the
computation (argument passed to the entitlement calculator, its result,
the balance value written, whether the issuer was invoked, whether the
transaction committed). -/
structure ClienteResult where
  db : DB
  committed : Bool
  calcArg : ℚ
  quantidadeNum : ℤ
  saldoRestante : ℚ
  issuerCalled : Bool
deriving Repr

/-- _processar_cliente cpf valores_notas: sum the group values, read the
balance, compute novo_saldo_total, ask the calculator for the entitled
count on the cumulative total, compute the mod-20 remainder; then inside
one transaction issue the tickets (when the count is positive), write the
remainder as the balance and clear the somar flag on the validated pending
rows of this cpf, rolling back on any step failure. -/
def processarCliente (calcNum : ℚ → ℤ) (issue : String → ℤ → List Numero → List Numero)
    (fs : FailureSpec) (cpf : String) (valores_notas : List ℚ) (db : DB) : ClienteResult :=
  let total_notas := valores_notas.sum
  let saldo_atual := lookupSaldo db cpf
  let novo_saldo_total := saldo_atual + total_notas
  let quantidade_num := calcNum novo_saldo_total
  let saldo_restante := pymod novo_saldo_total 20
  let c0 := beginTransaction ⟨db, none⟩
  let issuerCalled := decide (0 < quantidade_num)
  if 0 < quantidade_num ∧ fs.issuerFails = true then
    ⟨(rollback c0).cur, false, novo_saldo_total, quantidade_num, saldo_restante, issuerCalled⟩
  else
    let c1 := if 0 < quantidade_num then
        applyWrite c0 (fun d => { d with numeros := issue cpf quantidade_num d.numeros })
      else c0
    if fs.saldoFails = true then
      ⟨(rollback c1).cur, false, novo_saldo_total, quantidade_num, saldo_restante, issuerCalled⟩
    else
      let c2 := applyWrite c1 (fun d => updateSaldo d cpf saldo_restante)
      if fs.notasFails = true then
        ⟨(rollback c2).cur, false, novo_saldo_total, quantidade_num, saldo_restante, issuerCalled⟩
      else
        let c3 := applyWrite c2 (fun d => marcarNotas d cpf 1)
        ⟨(commit c3).cur, true, novo_saldo_total, quantidade_num, saldo_restante, issuerCalled⟩

/-- Pure arithmetic of _processar_cliente_cancelado (steps 1-4): tickets to
revoke, remainder, new balance, borrow rule.  Returns (numeros_para_excluir,
novo_saldo). -/
def cancelCompute (saldo_atual total_cancelado : ℚ) : ℤ × ℚ :=
  let numeros_para_excluir : ℤ := ⌊total_cancelado / 20⌋
  let saldo_restante_cancelado := pymod total_cancelado 20
  let novo_saldo := saldo_atual - saldo_restante_cancelado
  if novo_saldo < 0 then (numeros_para_excluir + 1, 20 + novo_saldo)
  else (numeros_para_excluir, novo_saldo)

/-- SELECT num_sorte FROM tab_numero_sorte WHERE cpf = ? ORDER BY
dt_cadastro DESC: tickets of the customer, most recently created first. -/
def numerosDoClienteDesc (db : DB) (cpf : String) : List Numero :=
  (db.numeros.filter (fun x => x.cpf = cpf)).mergeSort
    (fun a b => b.dt_cadastro ≤ a.dt_cadastro)

/-- DELETE FROM tab_numero_sorte WHERE num_sorte IN (ids). -/
def deleteNumeros (db : DB) (ids : List Nat) : DB :=
  { db with numeros := db.numeros.filter (fun x => decide (x.num_sorte ∉ ids)) }

/-- SELECT TOP n ... ORDER BY dt_cadastro DESC, executed only when the
revocation count is positive. -/
def selecionarNumeros (db : DB) (cpf : String) (n : ℤ) : List Numero :=
  if 0 < n then (numerosDoClienteDesc db cpf).take n.toNat else []

/-- Outcome of _processar_cliente_cancelado: final store state plus a trace
(tickets to revoke, new balance, ids of deleted tickets, commit flag). -/
structure CanceladoResult where
  db : DB
  committed : Bool
  numerosParaExcluir : ℤ
  novoSaldo : ℚ
  excluidos : List Nat
deriving Repr

/-- _processar_cliente_cancelado cpf total_cancelado: compute the revocation
count and new balance with the borrow rule, then inside one transaction
select TOP numeros_para_excluir tickets ordered by dt_cadastro DESC, delete
them (skipping the delete when the selection is empty), write the new
balance and clear the somar flag on the cancelled pending rows of this cpf,
rolling back on any step failure. -/
def processarClienteCancelado (fs : FailureSpec) (cpf : String) (total_cancelado : ℚ)
    (db : DB) : CanceladoResult :=
  let saldo_atual := lookupSaldo db cpf
  let p := cancelCompute saldo_atual total_cancelado
  let numeros_para_excluir := p.1
  let novo_saldo := p.2
  let c0 := beginTransaction ⟨db, none⟩
  let selecionados := selecionarNumeros db cpf numeros_para_excluir
  let ids := selecionados.map (fun x => x.num_sorte)
  if ids ≠ [] ∧ fs.deleteFails = true then
    ⟨(rollback c0).cur, false, numeros_para_excluir, novo_saldo, ids⟩
  else
    let c1 := if ids ≠ [] then applyWrite c0 (fun d => deleteNumeros d ids) else c0
    if fs.saldoFails = true then
      ⟨(rollback c1).cur, false, numeros_para_excluir, novo_saldo, ids⟩
    else
      let c2 := applyWrite c1 (fun d => updateSaldo d cpf novo_saldo)
      if fs.notasFails = true then
        ⟨(rollback c2).cur, false, numeros_para_excluir, novo_saldo, ids⟩
      else
        let c3 := applyWrite c2 (fun d => marcarNotas d cpf 3)
        ⟨(commit c3).cur, true, numeros_para_excluir, novo_saldo, ids⟩

/-- SELECT cpf, valor FROM tab_nota WHERE status = 1 AND somar = 1. -/
def notasValidadasPendentes (db : DB) : List Nota :=
  db.notas.filter (fun n => decide (n.status = 1 ∧ n.somar = true))

/-- SELECT cpf, valor FROM tab_nota WHERE status = 3 AND somar = 1. -/
def notasCanceladasPendentes (db : DB) : List Nota :=
  db.notas.filter (fun n => decide (n.status = 3 ∧ n.somar = true))

/-- Group rows by cpf in first-occurrence order, collecting the values of
each cpf in row order (the insertion-ordered dict built by
_processar_notas_validadas). -/
def agruparPorCpf (notas : List Nota) : List (String × List ℚ) :=
  notas.foldl (fun acc n =>
    if acc.any (fun g => g.1 = n.cpf) then
      acc.map (fun g => if g.1 = n.cpf then (g.1, g.2 ++ [n.valor]) else g)
    else acc ++ [(n.cpf, [n.valor])]) []

/-- SELECT cpf, SUM(valor) FROM tab_nota WHERE status = 3 AND somar = 1
GROUP BY cpf: per-cpf totals of the cancelled pending rows. -/
def agruparSomaPorCpf (notas : List Nota) : List (String × ℚ) :=
  (agruparPorCpf notas).map (fun g => (g.1, g.2.sum))

/-- _processar_notas_validadas: return unchanged when the connection fails
or no validated pending rows exist; otherwise group the rows by cpf and run
_processar_cliente for each customer in order, threading the store state.
The per-customer failure flags are a function of the cpf. -/
def processarNotasValidadas (calcNum : ℚ → ℤ) (issue : String → ℤ → List Numero → List Numero)
    (fs : String → FailureSpec) (conectado : Bool) (db : DB) : DB :=
  if conectado = false then db
  else
    let pend := notasValidadasPendentes db
    if pend = [] then db
    else (agruparPorCpf pend).foldl
      (fun d g => (processarCliente calcNum issue (fs g.1) g.1 g.2 d).db) db

/-- _processar_notas_canceladas: return unchanged when the connection fails
or no cancelled pending rows exist; otherwise run
_processar_cliente_cancelado for each (cpf, total) group in order. -/
def processarNotasCanceladas (fs : String → FailureSpec) (conectado : Bool) (db : DB) : DB :=
  if conectado = false then db
  else
    let grupos := agruparSomaPorCpf (notasCanceladasPendentes db)
    if grupos = [] then db
    else grupos.foldl
      (fun d g => (processarClienteCancelado (fs g.1) g.1 g.2 d).db) db

/-- Observable events of the scheduler loop _verificar_notas_loop. -/
inductive Event where
  | passValidadas : Event
  | passCanceladas : Event
  | sleep : Nat → Event
  | logError : Event
deriving DecidableEq, Repr

/-- Where, if anywhere, an exception escapes to the loop-level handler in
one iteration. -/
inductive RaiseAt where
  | nowhere : RaiseAt
  | validadas : RaiseAt
  | canceladas : RaiseAt
deriving DecidableEq, Repr

/-- Events of one iteration of the loop body: the try block runs the
validated pass, then the cancelled pass, then sleeps 60; an exception
escaping a pass aborts the rest of the try block and the except arm logs
the error and sleeps 60. -/
def iterEvents : RaiseAt → List Event
  | .nowhere => [.passValidadas, .passCanceladas, .sleep 60]
  | .validadas => [.passValidadas, .logError, .sleep 60]
  | .canceladas => [.passValidadas, .passCanceladas, .logError, .sleep 60]

/-- _verificar_notas_loop observed for at most fuel iterations starting at
iteration index i: while the running flag (as read at each iteration) is
set, emit the events of the iteration body and continue. -/
def verificarNotasLoop (raisePt : Nat → RaiseAt) (running : Nat → Bool) :
    Nat → Nat → List Event
  | 0, _ => []
  | fuel + 1, i =>
    if running i then iterEvents (raisePt i) ++ verificarNotasLoop raisePt running fuel (i + 1)
    else []

/-- Number of iterations the loop executes within the fuel bound; depends
only on the running flag, never on errors. -/
def iteracoesExecutadas (running : Nat → Bool) : Nat → Nat → Nat
  | 0, _ => 0
  | fuel + 1, i =>
    if running i then iteracoesExecutadas running fuel (i + 1) + 1 else 0

/-- Scheduler state of ThreadVerificacaoNotas: the running flag and the
optional background thread handle. -/
structure Scheduler where
  running : Bool
  threadHandle : Option Unit
deriving DecidableEq, Repr

/-- Constructor state: running = False, thread = None. -/
def novaThreadVerificacao : Scheduler := ⟨false, none⟩

/-- iniciar_thread: when not running, set the flag and create the thread
handle; otherwise a no-op. -/
def iniciarThread (s : Scheduler) : Scheduler :=
  if s.running = false then { running := true, threadHandle := some () }
  else s

/-- parar_thread: clear the running flag, then join only when a thread
handle is present.  Returns the new state and whether join was called. -/
def pararThread (s : Scheduler) : Scheduler × Bool :=
  let s1 := { s with running := false }
  match s1.threadHandle with
  | some _ => (s1, true)
  | none => (s1, false)



/-! Helper lemmas about the embedding. -/

theorem pymod_eq_fract (a b : ℚ) (hb : b ≠ 0) : pymod a b = b * Int.fract (a / b) := by
  unfold pymod Int.fract
  field_simp

theorem pymod_nonneg (a b : ℚ) (hb : 0 < b) : 0 ≤ pymod a b := by
  rw [pymod_eq_fract a b hb.ne']
  exact mul_nonneg hb.le (Int.fract_nonneg _)

theorem pymod_lt (a b : ℚ) (hb : 0 < b) : pymod a b < b := by
  rw [pymod_eq_fract a b hb.ne']
  calc b * Int.fract (a / b) < b * 1 := mul_lt_mul_of_pos_left (Int.fract_lt_one _) hb
    _ = b := mul_one b

theorem processarCliente_trace (calcNum : ℚ → ℤ) (issue : String → ℤ → List Numero → List Numero)
    (fs : FailureSpec) (cpf : String) (valores : List ℚ) (db : DB) :
    (processarCliente calcNum issue fs cpf valores db).calcArg = lookupSaldo db cpf + valores.sum ∧
    (processarCliente calcNum issue fs cpf valores db).quantidadeNum
      = calcNum (lookupSaldo db cpf + valores.sum) ∧
    (processarCliente calcNum issue fs cpf valores db).saldoRestante
      = pymod (lookupSaldo db cpf + valores.sum) 20 ∧
    (processarCliente calcNum issue fs cpf valores db).issuerCalled
      = decide (0 < calcNum (lookupSaldo db cpf + valores.sum)) := by
  unfold processarCliente
  by_cases hq : 0 < calcNum (lookupSaldo db cpf + valores.sum) <;>
    by_cases hi : fs.issuerFails = true <;>
    by_cases hs : fs.saldoFails = true <;>
    by_cases hn : fs.notasFails = true <;>
    simp [hq, hi, hs, hn]

theorem processarCliente_db_eq (calcNum : ℚ → ℤ) (issue : String → ℤ → List Numero → List Numero)
    (fs : FailureSpec) (cpf : String) (valores : List ℚ) (db : DB) :
    (processarCliente calcNum issue fs cpf valores db).db =
      if (processarCliente calcNum issue fs cpf valores db).committed = true then
        marcarNotas (updateSaldo
          (if 0 < calcNum (lookupSaldo db cpf + valores.sum) then
            { db with numeros := issue cpf (calcNum (lookupSaldo db cpf + valores.sum)) db.numeros }
          else db) cpf (pymod (lookupSaldo db cpf + valores.sum) 20)) cpf 1
      else db := by
  unfold processarCliente beginTransaction rollback commit applyWrite
  by_cases hq : 0 < calcNum (lookupSaldo db cpf + valores.sum) <;>
    by_cases hi : fs.issuerFails = true <;>
    by_cases hs : fs.saldoFails = true <;>
    by_cases hn : fs.notasFails = true <;>
    simp [hq, hi, hs, hn]

theorem processarCliente_committed_iff (calcNum : ℚ → ℤ)
    (issue : String → ℤ → List Numero → List Numero)
    (fs : FailureSpec) (cpf : String) (valores : List ℚ) (db : DB) :
    (processarCliente calcNum issue fs cpf valores db).committed = true ↔
      ¬(0 < calcNum (lookupSaldo db cpf + valores.sum) ∧ fs.issuerFails = true) ∧
      fs.saldoFails = false ∧ fs.notasFails = false := by
  unfold processarCliente
  by_cases hq : 0 < calcNum (lookupSaldo db cpf + valores.sum) <;>
    by_cases hi : fs.issuerFails = true <;>
    by_cases hs : fs.saldoFails = true <;>
    by_cases hn : fs.notasFails = true <;>
    simp [hq, hi, hs, hn]

theorem processarClienteCancelado_trace (fs : FailureSpec) (cpf : String) (t : ℚ) (db : DB) :
    (processarClienteCancelado fs cpf t db).numerosParaExcluir
      = (cancelCompute (lookupSaldo db cpf) t).1 ∧
    (processarClienteCancelado fs cpf t db).novoSaldo
      = (cancelCompute (lookupSaldo db cpf) t).2 ∧
    (processarClienteCancelado fs cpf t db).excluidos
      = (selecionarNumeros db cpf (cancelCompute (lookupSaldo db cpf) t).1).map
          (fun x => x.num_sorte) := by
  unfold processarClienteCancelado
  by_cases he : selecionarNumeros db cpf (cancelCompute (lookupSaldo db cpf) t).1 = [] <;>
    by_cases hd : fs.deleteFails = true <;>
    by_cases hs : fs.saldoFails = true <;>
    by_cases hn : fs.notasFails = true <;>
    simp [he, hd, hs, hn]

theorem processarClienteCancelado_db_eq (fs : FailureSpec) (cpf : String) (t : ℚ) (db : DB) :
    (processarClienteCancelado fs cpf t db).db =
      if (processarClienteCancelado fs cpf t db).committed = true then
        marcarNotas (updateSaldo
          (if ((selecionarNumeros db cpf (cancelCompute (lookupSaldo db cpf) t).1).map
              (fun x => x.num_sorte)) ≠ [] then
            deleteNumeros db ((selecionarNumeros db cpf (cancelCompute (lookupSaldo db cpf) t).1).map
              (fun x => x.num_sorte))
          else db) cpf (cancelCompute (lookupSaldo db cpf) t).2) cpf 3
      else db := by
  unfold processarClienteCancelado beginTransaction rollback commit applyWrite
  by_cases he : selecionarNumeros db cpf (cancelCompute (lookupSaldo db cpf) t).1 = [] <;>
    by_cases hd : fs.deleteFails = true <;>
    by_cases hs : fs.saldoFails = true <;>
    by_cases hn : fs.notasFails = true <;>
    simp [he, hd, hs, hn]

theorem processarClienteCancelado_committed_iff (fs : FailureSpec) (cpf : String) (t : ℚ) (db : DB) :
    (processarClienteCancelado fs cpf t db).committed = true ↔
      ¬(((selecionarNumeros db cpf (cancelCompute (lookupSaldo db cpf) t).1).map
          (fun x => x.num_sorte)) ≠ [] ∧ fs.deleteFails = true) ∧
      fs.saldoFails = false ∧ fs.notasFails = false := by
  unfold processarClienteCancelado
  by_cases he : selecionarNumeros db cpf (cancelCompute (lookupSaldo db cpf) t).1 = [] <;>
    by_cases hd : fs.deleteFails = true <;>
    by_cases hs : fs.saldoFails = true <;>
    by_cases hn : fs.notasFails = true <;>
    simp [he, hd, hs, hn]


/-- Whether a customer row exists for this cpf. -/
def temCliente (db : DB) (cpf : String) : Bool :=
  (db.clientes.find? (fun c => c.1 = cpf)).isSome

theorem find?_map_update (l : List (String × Option ℚ)) (cpf : String) (v : ℚ) :
    (l.map (fun c => if c.1 = cpf then (c.1, some v) else c)).find? (fun c => c.1 = cpf)
      = (l.find? (fun c => c.1 = cpf)).map (fun c => (c.1, some v)) := by
  induction l with
  | nil => rfl
  | cons hd tl ih =>
    by_cases h : hd.1 = cpf <;> simp [List.find?, h, ih]

theorem lookupSaldo_updateSaldo_self (db : DB) (cpf : String) (v : ℚ) :
    lookupSaldo (updateSaldo db cpf v) cpf
      = if temCliente db cpf = true then v else 0 := by
  unfold lookupSaldo updateSaldo temCliente
  rw [show (DB.mk (db.clientes.map (fun c => if c.1 = cpf then (c.1, some v) else c))
      db.notas db.numeros).clientes
    = db.clientes.map (fun c => if c.1 = cpf then (c.1, some v) else c) from rfl]
  rw [find?_map_update]
  cases h : db.clientes.find? (fun c => decide (c.1 = cpf)) <;> simp

theorem lookupSaldo_marcarNotas (db : DB) (c1 : String) (st : Nat) (c2 : String) :
    lookupSaldo (marcarNotas db c1 st) c2 = lookupSaldo db c2 := rfl

theorem lookupSaldo_deleteNumeros (db : DB) (ids : List Nat) (c2 : String) :
    lookupSaldo (deleteNumeros db ids) c2 = lookupSaldo db c2 := rfl

theorem cancelCompute_bounds (b t : ℚ) (hb0 : 0 ≤ b) (hb20 : b < 20) :
    0 ≤ (cancelCompute b t).2 ∧ (cancelCompute b t).2 < 20 := by
  have hn := pymod_nonneg t 20 (by norm_num)
  have hl := pymod_lt t 20 (by norm_num)
  by_cases hcond : b - pymod t 20 < 0
  · simp only [cancelCompute, if_pos hcond]
    constructor <;> linarith
  · simp only [cancelCompute, if_neg hcond]
    constructor <;> linarith

/-- C2: in a validated-credit pass with balance b and group sum s, the
engine computes new_total = b + s, invokes the entitlement calculator on
the cumulative new_total, persists the balance as new_total mod 20, and
requests ticket issuance only when the entitled count is positive. -/
theorem c2_validated_cumulative_total (calcNum : ℚ → ℤ)
    (issue : String → ℤ → List Numero → List Numero) (fs : FailureSpec)
    (cpf : String) (valores : List ℚ) (db : DB) :
    (processarCliente calcNum issue fs cpf valores db).calcArg
      = lookupSaldo db cpf + valores.sum ∧
    (processarCliente calcNum issue fs cpf valores db).quantidadeNum
      = calcNum (lookupSaldo db cpf + valores.sum) ∧
    (processarCliente calcNum issue fs cpf valores db).saldoRestante
      = pymod (lookupSaldo db cpf + valores.sum) 20 ∧
    ((processarCliente calcNum issue fs cpf valores db).issuerCalled = true ↔
      0 < calcNum (lookupSaldo db cpf + valores.sum)) ∧
    ((processarCliente calcNum issue fs cpf valores db).committed = true →
      temCliente db cpf = true →
      lookupSaldo (processarCliente calcNum issue fs cpf valores db).db cpf
        = pymod (lookupSaldo db cpf + valores.sum) 20) := by
  obtain ⟨h1, h2, h3, h4⟩ := processarCliente_trace calcNum issue fs cpf valores db
  refine ⟨h1, h2, h3, ?_, ?_⟩
  · rw [h4]
    simp
  · intro hcm htc
    rw [processarCliente_db_eq calcNum issue fs cpf valores db, if_pos hcm,
      lookupSaldo_marcarNotas]
    have hX : temCliente (if 0 < calcNum (lookupSaldo db cpf + valores.sum) then
        { db with numeros := issue cpf (calcNum (lookupSaldo db cpf + valores.sum)) db.numeros }
      else db) cpf = true := by
      split <;> simpa [temCliente] using htc
    rw [lookupSaldo_updateSaldo_self, if_pos hX]

def calcW : ℚ → ℤ := fun _ => 2

def issueW : String → ℤ → List Numero → List Numero :=
  fun cpf q l => l ++ (List.range q.toNat).map (fun i => ⟨1000 + i, cpf, 100 + i⟩)

def dbC2 : DB :=
  { clientes := [("A", some 15)],
    notas := [⟨"A", 10, 1, true⟩, ⟨"A", 20, 1, true⟩],
    numeros := [] }

/-- C2 witness: balance 15, validated invoices [10, 20]. -/
theorem c2_witness :
    (processarCliente calcW issueW noFail "A" [10, 20] dbC2).calcArg = 45 ∧
    lookupSaldo (processarCliente calcW issueW noFail "A" [10, 20] dbC2).db "A" = 5 := by
  have h := c2_validated_cumulative_total calcW issueW noFail "A" [10, 20] dbC2
  have hb : lookupSaldo dbC2 "A" = 15 := rfl
  have hcm : (processarCliente calcW issueW noFail "A" [10, 20] dbC2).committed = true := by
    rw [processarCliente_committed_iff]
    exact ⟨fun hx => by simpa [noFail] using hx.2, rfl, rfl⟩
  have htc : temCliente dbC2 "A" = true := rfl
  constructor
  · rw [h.1, hb]
    norm_num
  · rw [h.2.2.2.2 hcm htc, hb]
    norm_num [pymod]

/-- C3: cancellation pass arithmetic with the borrow rule. -/
theorem c3_cancellation_borrow_rule (fs : FailureSpec) (cpf : String) (t : ℚ) (db : DB) :
    ((processarClienteCancelado fs cpf t db).numerosParaExcluir,
      (processarClienteCancelado fs cpf t db).novoSaldo)
      = (if lookupSaldo db cpf - pymod t 20 < 0 then
          (⌊t / 20⌋ + 1, lookupSaldo db cpf - pymod t 20 + 20)
        else (⌊t / 20⌋, lookupSaldo db cpf - pymod t 20)) ∧
    ((processarClienteCancelado fs cpf t db).committed = true →
      temCliente db cpf = true →
      lookupSaldo (processarClienteCancelado fs cpf t db).db cpf
        = (processarClienteCancelado fs cpf t db).novoSaldo) := by
  obtain ⟨h1, h2, h3⟩ := processarClienteCancelado_trace fs cpf t db
  constructor
  · rw [h1, h2]
    by_cases hcond : lookupSaldo db cpf - pymod t 20 < 0 <;>
      · simp [cancelCompute, hcond, Prod.ext_iff]
        try ring
  · intro hcm htc
    rw [processarClienteCancelado_db_eq fs cpf t db, if_pos hcm, lookupSaldo_marcarNotas]
    have hX : temCliente (if ((selecionarNumeros db cpf
        (cancelCompute (lookupSaldo db cpf) t).1).map (fun x => x.num_sorte)) ≠ [] then
        deleteNumeros db ((selecionarNumeros db cpf
          (cancelCompute (lookupSaldo db cpf) t).1).map (fun x => x.num_sorte))
      else db) cpf = true := by
      split <;> simpa [temCliente, deleteNumeros] using htc
    rw [lookupSaldo_updateSaldo_self, if_pos hX, h2]

def dbC3 : DB :=
  { clientes := [("B", some 5)],
    notas := [⟨"B", 12, 3, true⟩],
    numeros := [⟨7, "B", 50⟩, ⟨9, "B", 80⟩] }

/-- C3 witness: balance 5, cancelled total 12, borrow rule fires. -/
theorem c3_witness :
    (processarClienteCancelado noFail "B" 12 dbC3).numerosParaExcluir = 1 ∧
    (processarClienteCancelado noFail "B" 12 dbC3).novoSaldo = 13 ∧
    lookupSaldo (processarClienteCancelado noFail "B" 12 dbC3).db "B" = 13 := by
  have h := c3_cancellation_borrow_rule noFail "B" 12 dbC3
  have hb : lookupSaldo dbC3 "B" = 5 := rfl
  have hm : pymod 12 20 = 12 := by norm_num [pymod]
  have hcond : lookupSaldo dbC3 "B" - pymod 12 20 < 0 := by
    rw [hb, hm]
    norm_num
  have hpair := h.1
  rw [if_pos hcond, hb, hm] at hpair
  have hrev := congrArg Prod.fst hpair
  have hns := congrArg Prod.snd hpair
  norm_num at hrev hns
  have hcm : (processarClienteCancelado noFail "B" 12 dbC3).committed = true := by
    rw [processarClienteCancelado_committed_iff]
    exact ⟨fun hx => by simpa [noFail] using hx.2, rfl, rfl⟩
  refine ⟨hrev, hns, ?_⟩
  rw [h.2 hcm rfl, hns]

/-- C4: persisted balances stay in [0, 20). -/
theorem c4_saldo_range_invariant (calcNum : ℚ → ℤ)
    (issue : String → ℤ → List Numero → List Numero) (fs fsc : FailureSpec)
    (cpf : String) (valores : List ℚ) (t : ℚ) (db : DB)
    (h0 : 0 ≤ lookupSaldo db cpf) (h20 : lookupSaldo db cpf < 20) :
    (0 ≤ lookupSaldo (processarCliente calcNum issue fs cpf valores db).db cpf ∧
      lookupSaldo (processarCliente calcNum issue fs cpf valores db).db cpf < 20) ∧
    (0 ≤ lookupSaldo (processarClienteCancelado fsc cpf t db).db cpf ∧
      lookupSaldo (processarClienteCancelado fsc cpf t db).db cpf < 20) := by
  constructor
  · by_cases hcm : (processarCliente calcNum issue fs cpf valores db).committed = true
    · rw [processarCliente_db_eq calcNum issue fs cpf valores db, if_pos hcm,
        lookupSaldo_marcarNotas, lookupSaldo_updateSaldo_self]
      have hXc : temCliente (if 0 < calcNum (lookupSaldo db cpf + valores.sum) then
          { db with numeros := issue cpf (calcNum (lookupSaldo db cpf + valores.sum)) db.numeros }
        else db) cpf = temCliente db cpf := by
        split <;> rfl
      rw [hXc]
      constructor
      · split
        · exact pymod_nonneg _ _ (by norm_num)
        · norm_num
      · split
        · exact pymod_lt _ _ (by norm_num)
        · norm_num
    · rw [processarCliente_db_eq calcNum issue fs cpf valores db, if_neg hcm]
      exact ⟨h0, h20⟩
  · by_cases hcm : (processarClienteCancelado fsc cpf t db).committed = true
    · obtain ⟨hn0, hn20⟩ := cancelCompute_bounds (lookupSaldo db cpf) t h0 h20
      rw [processarClienteCancelado_db_eq fsc cpf t db, if_pos hcm,
        lookupSaldo_marcarNotas, lookupSaldo_updateSaldo_self]
      have hXc : temCliente (if ((selecionarNumeros db cpf
          (cancelCompute (lookupSaldo db cpf) t).1).map (fun x => x.num_sorte)) ≠ [] then
          deleteNumeros db ((selecionarNumeros db cpf
            (cancelCompute (lookupSaldo db cpf) t).1).map (fun x => x.num_sorte))
        else db) cpf = temCliente db cpf := by
        split <;> rfl
      rw [hXc]
      constructor
      · split
        · exact hn0
        · norm_num
      · split
        · exact hn20
        · norm_num
    · rw [processarClienteCancelado_db_eq fsc cpf t db, if_neg hcm]
      exact ⟨h0, h20⟩

/-- C4 witness at balance 15. -/
theorem c4_witness :
    (0 ≤ lookupSaldo (processarCliente calcW issueW noFail "A" [10, 20] dbC2).db "A" ∧
      lookupSaldo (processarCliente calcW issueW noFail "A" [10, 20] dbC2).db "A" < 20) ∧
    (0 ≤ lookupSaldo (processarClienteCancelado noFail "A" 12 dbC2).db "A" ∧
      lookupSaldo (processarClienteCancelado noFail "A" 12 dbC2).db "A" < 20) :=
  c4_saldo_range_invariant calcW issueW noFail noFail "A" [10, 20] 12 dbC2
    (by rw [show lookupSaldo dbC2 "A" = 15 from rfl]; norm_num)
    (by rw [show lookupSaldo dbC2 "A" = 15 from rfl]; norm_num)

/-- C1: per-customer atomicity: when any transactional step fails the store
is unchanged (full rollback); on commit the ticket mutation, the balance
update and the pending-flag update are all applied together. -/
theorem c1_per_customer_atomicity (calcNum : ℚ → ℤ)
    (issue : String → ℤ → List Numero → List Numero) (fs fsc : FailureSpec)
    (cpf : String) (valores : List ℚ) (t : ℚ) (db : DB) :
    ((processarCliente calcNum issue fs cpf valores db).committed = false →
      (processarCliente calcNum issue fs cpf valores db).db = db) ∧
    ((processarCliente calcNum issue fs cpf valores db).committed = true →
      (processarCliente calcNum issue fs cpf valores db).db
        = marcarNotas (updateSaldo
            (if 0 < calcNum (lookupSaldo db cpf + valores.sum) then
              { db with numeros := issue cpf (calcNum (lookupSaldo db cpf + valores.sum)) db.numeros }
            else db) cpf (pymod (lookupSaldo db cpf + valores.sum) 20)) cpf 1) ∧
    ((processarClienteCancelado fsc cpf t db).committed = false →
      (processarClienteCancelado fsc cpf t db).db = db) ∧
    ((processarClienteCancelado fsc cpf t db).committed = true →
      (processarClienteCancelado fsc cpf t db).db
        = marcarNotas (updateSaldo
            (if ((selecionarNumeros db cpf (cancelCompute (lookupSaldo db cpf) t).1).map
                (fun x => x.num_sorte)) ≠ [] then
              deleteNumeros db ((selecionarNumeros db cpf
                (cancelCompute (lookupSaldo db cpf) t).1).map (fun x => x.num_sorte))
            else db) cpf (cancelCompute (lookupSaldo db cpf) t).2) cpf 3) := by
  refine ⟨?_, ?_, ?_, ?_⟩
  · intro h
    rw [processarCliente_db_eq calcNum issue fs cpf valores db]
    simp [h]
  · intro h
    rw [processarCliente_db_eq calcNum issue fs cpf valores db, if_pos h]
  · intro h
    rw [processarClienteCancelado_db_eq fsc cpf t db]
    simp [h]
  · intro h
    rw [processarClienteCancelado_db_eq fsc cpf t db, if_pos h]

/-- Failure specification in which the balance update reports failure. -/
def fsSaldoFail : FailureSpec := ⟨false, true, false, false⟩

/-- C1 witness: with a failing balance update neither reconciler changes
the store. -/
theorem c1_witness :
    (processarCliente calcW issueW fsSaldoFail "A" [10, 20] dbC2).db = dbC2 ∧
    (processarClienteCancelado fsSaldoFail "B" 12 dbC3).db = dbC3 := by
  have hcf1 : (processarCliente calcW issueW fsSaldoFail "A" [10, 20] dbC2).committed = false := by
    cases hc : (processarCliente calcW issueW fsSaldoFail "A" [10, 20] dbC2).committed
    · rfl
    · have hx := (processarCliente_committed_iff calcW issueW fsSaldoFail "A" [10, 20] dbC2).mp hc
      simp [fsSaldoFail] at hx
  have hcf2 : (processarClienteCancelado fsSaldoFail "B" 12 dbC3).committed = false := by
    cases hc : (processarClienteCancelado fsSaldoFail "B" 12 dbC3).committed
    · rfl
    · have hx := (processarClienteCancelado_committed_iff fsSaldoFail "B" 12 dbC3).mp hc
      simp [fsSaldoFail] at hx
  exact ⟨(c1_per_customer_atomicity calcW issueW fsSaldoFail fsSaldoFail "A" [10, 20] 12 dbC2).1 hcf1,
    (c1_per_customer_atomicity calcW issueW fsSaldoFail fsSaldoFail "B" [10, 20] 12 dbC3).2.2.1 hcf2⟩

/-- C8: when the store connection cannot be established, each pass returns
with the store untouched. -/
theorem c8_connection_failure_skips_pass (calcNum : ℚ → ℤ)
    (issue : String → ℤ → List Numero → List Numero)
    (fs : String → FailureSpec) (db : DB) :
    processarNotasValidadas calcNum issue fs false db = db ∧
    processarNotasCanceladas fs false db = db :=
  ⟨rfl, rfl⟩

/-- C10: parar_thread with no background thread returns without joining and
leaves the state with the running flag false. -/
theorem c10_parar_sem_iniciar :
    pararThread novaThreadVerificacao = (novaThreadVerificacao, false) ∧
    (∀ s : Scheduler, s.threadHandle = none →
      pararThread s = ({ s with running := false }, false)) ∧
    (∀ s : Scheduler, (pararThread s).2 = s.threadHandle.isSome) := by
  refine ⟨rfl, ?_, ?_⟩
  · intro s hs
    simp [pararThread, hs]
  · intro s
    cases hs : s.threadHandle <;> simp [pararThread, hs]

/-- C10 witness: stopping a never-started scheduler. -/
theorem c10_witness : pararThread ⟨true, none⟩ = (⟨false, none⟩, false) :=
  c10_parar_sem_iniciar.2.1 ⟨true, none⟩ rfl

/-- C9: each running iteration emits the validated pass, then (when no
exception interrupts) the cancelled pass, always ends with a 60-unit sleep,
logs any escaping exception, and the number of iterations executed is
independent of errors. -/
theorem c9_scheduler_loop (raisePt : Nat → RaiseAt) (running : Nat → Bool) (fuel i : Nat) :
    (running i = true →
      verificarNotasLoop raisePt running (fuel + 1) i
        = iterEvents (raisePt i) ++ verificarNotasLoop raisePt running fuel (i + 1)) ∧
    (iterEvents (raisePt i)).getLast? = some (Event.sleep 60) ∧
    iterEvents RaiseAt.nowhere = [Event.passValidadas, Event.passCanceladas, Event.sleep 60] ∧
    (raisePt i ≠ RaiseAt.nowhere → Event.logError ∈ iterEvents (raisePt i)) ∧
    (verificarNotasLoop raisePt running fuel i).count (Event.sleep 60)
      = iteracoesExecutadas running fuel i := by
  refine ⟨?_, ?_, rfl, ?_, ?_⟩
  · intro h
    simp [verificarNotasLoop, h]
  · cases hr : raisePt i <;> rfl
  · intro h
    cases hr : raisePt i
    · exact absurd hr h
    · simp [iterEvents]
    · simp [iterEvents]
  · induction fuel generalizing i with
    | zero => rfl
    | succ n ih =>
      by_cases h : running i = true
      · rw [show verificarNotasLoop raisePt running (n + 1) i
            = iterEvents (raisePt i) ++ verificarNotasLoop raisePt running n (i + 1) from by
              simp [verificarNotasLoop, h]]
        rw [List.count_append]
        rw [show (iterEvents (raisePt i)).count (Event.sleep 60) = 1 from by
          cases raisePt i <;> rfl]
        rw [ih (i + 1)]
        simp [iteracoesExecutadas, h, Nat.add_comm]
      · have hf : running i = false := by
          cases hr : running i
          · rfl
          · exact absurd hr h
        simp [verificarNotasLoop, iteracoesExecutadas, hf]

/-- C9 witness: an iteration with an exception escaping the validated pass
still logs and continues. -/
theorem c9_witness :
    verificarNotasLoop (fun _ => RaiseAt.validadas) (fun _ => true) 1 0
      = iterEvents RaiseAt.validadas
        ++ verificarNotasLoop (fun _ => RaiseAt.validadas) (fun _ => true) 0 1 ∧
    Event.logError ∈ iterEvents RaiseAt.validadas := by
  have h := c9_scheduler_loop (fun _ => RaiseAt.validadas) (fun _ => true) 0 0
  exact ⟨h.1 rfl, h.2.2.2.1 (by decide)⟩

theorem numeros_marcarNotas (db : DB) (c : String) (s : Nat) :
    (marcarNotas db c s).numeros = db.numeros := rfl

theorem numeros_updateSaldo (db : DB) (c : String) (v : ℚ) :
    (updateSaldo db c v).numeros = db.numeros := rfl

theorem sorted_numerosDoClienteDesc (db : DB) (cpf : String) :
    List.Sorted (fun a b : Numero => b.dt_cadastro ≤ a.dt_cadastro)
      (numerosDoClienteDesc db cpf) := by
  have h := @List.sorted_mergeSort Numero
    (fun a b => decide (b.dt_cadastro ≤ a.dt_cadastro))
    (fun a b c hab hbc => by
      simp only [decide_eq_true_eq] at hab hbc ⊢
      exact le_trans hbc hab)
    (fun a b => by
      simp only [Bool.or_eq_true, decide_eq_true_eq]
      exact le_total b.dt_cadastro a.dt_cadastro)
    (db.numeros.filter (fun x => x.cpf = cpf))
  exact h.imp (fun hab => by simpa using hab)

theorem mem_numerosDoClienteDesc (db : DB) (cpf : String) (k : Numero)
    (hk : k ∈ db.numeros) (hkc : k.cpf = cpf) : k ∈ numerosDoClienteDesc db cpf :=
  ((List.mergeSort_perm _ _).mem_iff).mpr (List.mem_filter.mpr ⟨hk, by simp [hkc]⟩)

/-- C5: revocation deletes only the most recently created tickets (every
ticket of the customer still stored is no newer than any selected-for-
deletion ticket), never fails for lack of tickets, and under a shortfall
deletes all the tickets of the customer while still applying the balance
and pending-flag writes. -/
theorem c5_lifo_revocation_and_shortfall (fs : FailureSpec) (cpf : String) (t : ℚ) (db : DB) :
    ((processarClienteCancelado fs cpf t db).committed = true →
      ∀ d ∈ selecionarNumeros db cpf (cancelCompute (lookupSaldo db cpf) t).1,
      ∀ k ∈ (processarClienteCancelado fs cpf t db).db.numeros,
        k.cpf = cpf → k.dt_cadastro ≤ d.dt_cadastro) ∧
    (processarClienteCancelado noFail cpf t db).committed = true ∧
    ((db.numeros.filter (fun x => x.cpf = cpf)).length
        < (cancelCompute (lookupSaldo db cpf) t).1.toNat →
      (∀ k ∈ (processarClienteCancelado noFail cpf t db).db.numeros, k.cpf ≠ cpf) ∧
      (processarClienteCancelado noFail cpf t db).db.notas = (marcarNotas db cpf 3).notas ∧
      (temCliente db cpf = true →
        lookupSaldo (processarClienteCancelado noFail cpf t db).db cpf
          = (cancelCompute (lookupSaldo db cpf) t).2)) := by
  have hcmNoFail : (processarClienteCancelado noFail cpf t db).committed = true :=
    (processarClienteCancelado_committed_iff noFail cpf t db).mpr
      ⟨fun hx => by simpa [noFail] using hx.2, rfl, rfl⟩
  refine ⟨?_, hcmNoFail, ?_⟩
  · intro hcm d hd k hk hkc
    by_cases hn : 0 < (cancelCompute (lookupSaldo db cpf) t).1
    · have hd' : d ∈ (numerosDoClienteDesc db cpf).take
          (cancelCompute (lookupSaldo db cpf) t).1.toNat := by
        simpa [selecionarNumeros, hn] using hd
      have hids : ((selecionarNumeros db cpf (cancelCompute (lookupSaldo db cpf) t).1).map
          (fun x => x.num_sorte)) ≠ [] := by
        intro h0
        rw [List.map_eq_nil_iff] at h0
        rw [h0] at hd
        exact absurd hd (List.not_mem_nil d)
      rw [processarClienteCancelado_db_eq fs cpf t db, if_pos hcm,
        numeros_marcarNotas, numeros_updateSaldo, if_pos hids] at hk
      simp only [deleteNumeros, List.mem_filter, decide_eq_true_eq] at hk
      have hkL : k ∈ numerosDoClienteDesc db cpf := mem_numerosDoClienteDesc db cpf k hk.1 hkc
      have hknotsel : k ∉ (numerosDoClienteDesc db cpf).take
          (cancelCompute (lookupSaldo db cpf) t).1.toNat := by
        intro hmem
        apply hk.2
        exact List.mem_map_of_mem _ (by simpa [selecionarNumeros, hn] using hmem)
      have hkdrop : k ∈ (numerosDoClienteDesc db cpf).drop
          (cancelCompute (lookupSaldo db cpf) t).1.toNat := by
        have htd := List.take_append_drop
          (cancelCompute (lookupSaldo db cpf) t).1.toNat (numerosDoClienteDesc db cpf)
        have hkL2 : k ∈ (numerosDoClienteDesc db cpf).take
              (cancelCompute (lookupSaldo db cpf) t).1.toNat
            ++ (numerosDoClienteDesc db cpf).drop
              (cancelCompute (lookupSaldo db cpf) t).1.toNat := by
          rw [htd]
          exact hkL
        rcases List.mem_append.mp hkL2 with h1 | h2
        · exact absurd h1 hknotsel
        · exact h2
      exact (sorted_numerosDoClienteDesc db cpf).rel_of_mem_take_of_mem_drop hd' hkdrop
    · rw [show selecionarNumeros db cpf (cancelCompute (lookupSaldo db cpf) t).1 = []
          from by rw [selecionarNumeros, if_neg hn]] at hd
      exact absurd hd (List.not_mem_nil d)
  · intro hshort
    have hn : 0 < (cancelCompute (lookupSaldo db cpf) t).1 := by
      by_contra hle
      rw [Int.toNat_of_nonpos (not_lt.mp hle)] at hshort
      exact absurd hshort (Nat.not_lt_zero _)
    have hlen : (numerosDoClienteDesc db cpf).length
        ≤ (cancelCompute (lookupSaldo db cpf) t).1.toNat := by
      unfold numerosDoClienteDesc
      rw [(List.mergeSort_perm _ _).length_eq]
      exact le_of_lt hshort
    have hsel : selecionarNumeros db cpf (cancelCompute (lookupSaldo db cpf) t).1
        = numerosDoClienteDesc db cpf := by
      rw [selecionarNumeros, if_pos hn]
      exact List.take_of_length_le hlen
    refine ⟨?_, ?_, ?_⟩
    · intro k hk hkc
      rw [processarClienteCancelado_db_eq noFail cpf t db, if_pos hcmNoFail,
        numeros_marcarNotas, numeros_updateSaldo] at hk
      by_cases hLnil : numerosDoClienteDesc db cpf = []
      · rw [if_neg (by rw [hsel, hLnil]; simp)] at hk
        have hkL : k ∈ numerosDoClienteDesc db cpf := mem_numerosDoClienteDesc db cpf k hk hkc
        rw [hLnil] at hkL
        exact absurd hkL (List.not_mem_nil k)
      · rw [if_pos (by rw [hsel]; simpa using hLnil)] at hk
        simp only [deleteNumeros, List.mem_filter, decide_eq_true_eq] at hk
        apply hk.2
        rw [hsel]
        exact List.mem_map_of_mem _ (mem_numerosDoClienteDesc db cpf k hk.1 hkc)
    · rw [processarClienteCancelado_db_eq noFail cpf t db, if_pos hcmNoFail]
      have hXn : (if ((selecionarNumeros db cpf (cancelCompute (lookupSaldo db cpf) t).1).map
          (fun x => x.num_sorte)) ≠ [] then
          deleteNumeros db ((selecionarNumeros db cpf
            (cancelCompute (lookupSaldo db cpf) t).1).map (fun x => x.num_sorte))
        else db).notas = db.notas := by
        split <;> rfl
      exact congrArg (List.map _) hXn
    · intro htc
      rw [processarClienteCancelado_db_eq noFail cpf t db, if_pos hcmNoFail,
        lookupSaldo_marcarNotas, lookupSaldo_updateSaldo_self]
      have hXc : temCliente (if ((selecionarNumeros db cpf
          (cancelCompute (lookupSaldo db cpf) t).1).map (fun x => x.num_sorte)) ≠ [] then
          deleteNumeros db ((selecionarNumeros db cpf
            (cancelCompute (lookupSaldo db cpf) t).1).map (fun x => x.num_sorte))
        else db) cpf = temCliente db cpf := by
        split <;> rfl
      rw [hXc, if_pos htc]

def dbC5 : DB :=
  { clientes := [("C", some 5)],
    notas := [⟨"C", 45, 3, true⟩],
    numeros := [⟨7, "C", 50⟩] }

/-- C5 witness: shortfall with one ticket and a two-ticket revocation, and
the LIFO comparison at the concrete store of the borrow example. -/
theorem c5_witness :
    (processarClienteCancelado noFail "C" 45 dbC5).committed = true ∧
    (processarClienteCancelado noFail "C" 45 dbC5).db.notas = (marcarNotas dbC5 "C" 3).notas ∧
    lookupSaldo (processarClienteCancelado noFail "C" 45 dbC5).db "C" = 0 ∧
    (⟨7, "B", 50⟩ : Numero).dt_cadastro ≤ (⟨9, "B", 80⟩ : Numero).dt_cadastro := by
  have h := c5_lifo_revocation_and_shortfall noFail "C" 45 dbC5
  have h2 := c5_lifo_revocation_and_shortfall noFail "B" 12 dbC3
  have hb5 : lookupSaldo dbC5 "C" = 5 := rfl
  have hcc : cancelCompute (lookupSaldo dbC5 "C") 45 = (2, 0) := by
    rw [hb5]
    norm_num [cancelCompute, pymod]
  have hshort : (dbC5.numeros.filter (fun x => x.cpf = "C")).length
      < (cancelCompute (lookupSaldo dbC5 "C") 45).1.toNat := by
    rw [hcc]
    norm_num [dbC5]
  obtain ⟨hgone, hnotas, hsaldo⟩ := h.2.2 hshort
  have hb3 : lookupSaldo dbC3 "B" = 5 := rfl
  have hcc3 : cancelCompute (lookupSaldo dbC3 "B") 12 = (1, 13) := by
    rw [hb3]
    norm_num [cancelCompute, pymod]
  have hd : (⟨9, "B", 80⟩ : Numero) ∈ selecionarNumeros dbC3 "B"
      (cancelCompute (lookupSaldo dbC3 "B") 12).1 := by
    rw [hcc3]
    simp [selecionarNumeros, numerosDoClienteDesc, dbC3, List.mergeSort, List.merge]
  have hk : (⟨7, "B", 50⟩ : Numero) ∈ (processarClienteCancelado noFail "B" 12 dbC3).db.numeros := by
    rw [processarClienteCancelado_db_eq noFail "B" 12 dbC3, if_pos h2.2.1,
      numeros_marcarNotas, numeros_updateSaldo]
    rw [hcc3]
    simp [selecionarNumeros, numerosDoClienteDesc, dbC3, List.mergeSort, List.merge, deleteNumeros]
  refine ⟨h.2.1, hnotas, ?_, ?_⟩
  · rw [hsaldo rfl, hcc]
  · exact h2.1 h2.2.1 ⟨9, "B", 80⟩ hd ⟨7, "B", 50⟩ hk rfl

/-- Relation between invoice tables: the second is the first with the somar
flag cleared on some rows and nothing else changed. -/
def clearOnly : List Nota → List Nota → Prop
  | [], [] => True
  | n :: l, m :: l2 => (m = n ∨ m = { n with somar := false }) ∧ clearOnly l l2
  | _ :: _, [] => False
  | [], _ :: _ => False

theorem clearOnly_refl (l : List Nota) : clearOnly l l := by
  induction l with
  | nil => trivial
  | cons n l ih => exact ⟨Or.inl rfl, ih⟩

theorem clearOnly_trans {l1 l2 l3 : List Nota} (h12 : clearOnly l1 l2) (h23 : clearOnly l2 l3) :
    clearOnly l1 l3 := by
  induction l1 generalizing l2 l3 with
  | nil =>
    cases l2 with
    | nil =>
      cases l3 with
      | nil => trivial
      | cons m l3 => exact absurd h23 (by simp [clearOnly])
    | cons m l2 => exact absurd h12 (by simp [clearOnly])
  | cons n l ih =>
    cases l2 with
    | nil => exact absurd h12 (by simp [clearOnly])
    | cons m l2 =>
      cases l3 with
      | nil => exact absurd h23 (by simp [clearOnly])
      | cons p l3 =>
        obtain ⟨hm, hrest12⟩ := h12
        obtain ⟨hp, hrest23⟩ := h23
        refine ⟨?_, ih hrest12 hrest23⟩
        rcases hm with hm | hm <;> rcases hp with hp | hp <;>
          subst hm <;> subst hp <;> simp

theorem clearOnly_map_clear (l : List Nota) (cond : Nota → Bool) :
    clearOnly l (l.map (fun n => if cond n = true then { n with somar := false } else n)) := by
  induction l with
  | nil => trivial
  | cons n l ih =>
    refine ⟨?_, ih⟩
    by_cases h : cond n = true <;> simp [h]

theorem clearOnly_somar_false {l l2 : List Nota} (h : clearOnly l l2) (i : Nat)
    (h1 : i < l.length) (h2 : i < l2.length) :
    (l.get ⟨i, h1⟩).somar = false → (l2.get ⟨i, h2⟩).somar = false := by
  induction l generalizing l2 i with
  | nil => exact absurd h1 (Nat.not_lt_zero i)
  | cons n l ih =>
    cases l2 with
    | nil => exact absurd h (by simp [clearOnly])
    | cons m l2 =>
      obtain ⟨hm, hrest⟩ := h
      cases i with
      | zero =>
        intro hs
        rcases hm with hm | hm <;> subst hm
        · exact hs
        · rfl
      | succ j =>
        exact ih hrest j (Nat.lt_of_succ_lt_succ h1) (Nat.lt_of_succ_lt_succ h2)

theorem clearOnly_marcarNotas (db : DB) (cpf : String) (st : Nat) :
    clearOnly db.notas (marcarNotas db cpf st).notas := by
  have h := clearOnly_map_clear db.notas
    (fun n => decide (n.cpf = cpf ∧ n.status = st ∧ n.somar = true))
  unfold marcarNotas
  simpa using h

theorem notas_updateSaldo (db : DB) (c : String) (v : ℚ) :
    (updateSaldo db c v).notas = db.notas := rfl

theorem clearOnly_processarCliente (calcNum : ℚ → ℤ)
    (issue : String → ℤ → List Numero → List Numero) (fs : FailureSpec)
    (cpf : String) (vs : List ℚ) (db : DB) :
    clearOnly db.notas (processarCliente calcNum issue fs cpf vs db).db.notas := by
  by_cases hcm : (processarCliente calcNum issue fs cpf vs db).committed = true
  · rw [processarCliente_db_eq calcNum issue fs cpf vs db, if_pos hcm]
    have hXn : (if 0 < calcNum (lookupSaldo db cpf + vs.sum) then
        { db with numeros := issue cpf (calcNum (lookupSaldo db cpf + vs.sum)) db.numeros }
      else db).notas = db.notas := by
      split <;> rfl
    have h1 := clearOnly_marcarNotas (updateSaldo (if 0 < calcNum (lookupSaldo db cpf + vs.sum) then
        { db with numeros := issue cpf (calcNum (lookupSaldo db cpf + vs.sum)) db.numeros }
      else db) cpf (pymod (lookupSaldo db cpf + vs.sum) 20)) cpf 1
    rw [notas_updateSaldo, hXn] at h1
    exact h1
  · rw [processarCliente_db_eq calcNum issue fs cpf vs db, if_neg hcm]
    exact clearOnly_refl _

theorem notas_deleteNumeros (db : DB) (ids : List Nat) :
    (deleteNumeros db ids).notas = db.notas := rfl

theorem clearOnly_processarClienteCancelado (fs : FailureSpec) (cpf : String) (t : ℚ) (db : DB) :
    clearOnly db.notas (processarClienteCancelado fs cpf t db).db.notas := by
  by_cases hcm : (processarClienteCancelado fs cpf t db).committed = true
  · rw [processarClienteCancelado_db_eq fs cpf t db, if_pos hcm]
    have hXn : (if ((selecionarNumeros db cpf (cancelCompute (lookupSaldo db cpf) t).1).map
        (fun x => x.num_sorte)) ≠ [] then
        deleteNumeros db ((selecionarNumeros db cpf
          (cancelCompute (lookupSaldo db cpf) t).1).map (fun x => x.num_sorte))
      else db).notas = db.notas := by
      split <;> rfl
    have h1 := clearOnly_marcarNotas (updateSaldo (if ((selecionarNumeros db cpf
        (cancelCompute (lookupSaldo db cpf) t).1).map (fun x => x.num_sorte)) ≠ [] then
        deleteNumeros db ((selecionarNumeros db cpf
          (cancelCompute (lookupSaldo db cpf) t).1).map (fun x => x.num_sorte))
      else db) cpf (cancelCompute (lookupSaldo db cpf) t).2) cpf 3
    rw [notas_updateSaldo, hXn] at h1
    exact h1
  · rw [processarClienteCancelado_db_eq fs cpf t db, if_neg hcm]
    exact clearOnly_refl _

theorem clearOnly_foldValidadas (calcNum : ℚ → ℤ)
    (issue : String → ℤ → List Numero → List Numero) (fsm : String → FailureSpec)
    (groups : List (String × List ℚ)) (db : DB) :
    clearOnly db.notas
      ((groups.foldl (fun d g => (processarCliente calcNum issue (fsm g.1) g.1 g.2 d).db)
        db)).notas := by
  induction groups generalizing db with
  | nil => exact clearOnly_refl _
  | cons g gs ih =>
    exact clearOnly_trans (clearOnly_processarCliente calcNum issue (fsm g.1) g.1 g.2 db)
      (ih ((processarCliente calcNum issue (fsm g.1) g.1 g.2 db).db))

theorem clearOnly_foldCanceladas (fsm : String → FailureSpec)
    (groups : List (String × ℚ)) (db : DB) :
    clearOnly db.notas
      ((groups.foldl (fun d g => (processarClienteCancelado (fsm g.1) g.1 g.2 d).db)
        db)).notas := by
  induction groups generalizing db with
  | nil => exact clearOnly_refl _
  | cons g gs ih =>
    exact clearOnly_trans (clearOnly_processarClienteCancelado (fsm g.1) g.1 g.2 db)
      (ih ((processarClienteCancelado (fsm g.1) g.1 g.2 db).db))

/-- C7: both passes select only pending invoices; a pass that finds none
performs no writes at all; every write only ever clears the somar flag, so
a flag already false stays false across re-runs. -/
theorem c7_pending_flag_idempotence (calcNum : ℚ → ℤ)
    (issue : String → ℤ → List Numero → List Numero) (fsm : String → FailureSpec)
    (conectado : Bool) (db : DB) :
    (notasValidadasPendentes db = [] →
      processarNotasValidadas calcNum issue fsm conectado db = db) ∧
    (notasCanceladasPendentes db = [] →
      processarNotasCanceladas fsm conectado db = db) ∧
    clearOnly db.notas (processarNotasValidadas calcNum issue fsm conectado db).notas ∧
    clearOnly db.notas (processarNotasCanceladas fsm conectado db).notas ∧
    (∀ i (h1 : i < db.notas.length)
        (h2 : i < (processarNotasValidadas calcNum issue fsm conectado db).notas.length),
      (db.notas.get ⟨i, h1⟩).somar = false →
      ((processarNotasValidadas calcNum issue fsm conectado db).notas.get ⟨i, h2⟩).somar
        = false) ∧
    (∀ i (h1 : i < db.notas.length)
        (h2 : i < (processarNotasCanceladas fsm conectado db).notas.length),
      (db.notas.get ⟨i, h1⟩).somar = false →
      ((processarNotasCanceladas fsm conectado db).notas.get ⟨i, h2⟩).somar = false) := by
  have hcv : clearOnly db.notas (processarNotasValidadas calcNum issue fsm conectado db).notas := by
    unfold processarNotasValidadas
    cases conectado with
    | false => exact clearOnly_refl _
    | true =>
      by_cases hp : notasValidadasPendentes db = []
      · simp only [hp]
        simp
        exact clearOnly_refl _
      · simp only [if_neg hp]
        simp only [show (true = false) = False from by simp, if_false]
        exact clearOnly_foldValidadas calcNum issue fsm (agruparPorCpf (notasValidadasPendentes db)) db
  have hcc : clearOnly db.notas (processarNotasCanceladas fsm conectado db).notas := by
    unfold processarNotasCanceladas
    cases conectado with
    | false => exact clearOnly_refl _
    | true =>
      by_cases hp : agruparSomaPorCpf (notasCanceladasPendentes db) = []
      · simp [hp]
        exact clearOnly_refl _
      · simp only [show (true = false) = False from by simp, if_false]
        rw [if_neg hp]
        exact clearOnly_foldCanceladas fsm (agruparSomaPorCpf (notasCanceladasPendentes db)) db
  refine ⟨?_, ?_, hcv, hcc, ?_, ?_⟩
  · intro h0
    unfold processarNotasValidadas
    cases conectado <;> simp [h0]
  · intro h0
    unfold processarNotasCanceladas
    cases conectado <;> simp [h0, agruparSomaPorCpf, agruparPorCpf]
  · intro i h1 h2
    exact clearOnly_somar_false hcv i h1 h2
  · intro i h1 h2
    exact clearOnly_somar_false hcc i h1 h2

def dbC7 : DB :=
  { clientes := [("A", some 3)],
    notas := [⟨"A", 10, 1, false⟩, ⟨"A", 7, 3, false⟩],
    numeros := [] }

/-- C7 witness: with no pending invoices both passes leave the store
untouched, and the processed flags stay false. -/
theorem c7_witness :
    processarNotasValidadas calcW issueW (fun _ => noFail) true dbC7 = dbC7 ∧
    processarNotasCanceladas (fun _ => noFail) true dbC7 = dbC7 ∧
    ((processarNotasValidadas calcW issueW (fun _ => noFail) true dbC7).notas.get
      ⟨0, by rw [(c7_pending_flag_idempotence calcW issueW (fun _ => noFail) true dbC7).1 rfl]; norm_num [dbC7]⟩).somar = false := by
  have h := c7_pending_flag_idempotence calcW issueW (fun _ => noFail) true dbC7
  refine ⟨h.1 rfl, h.2.1 rfl, ?_⟩
  exact h.2.2.2.2.1 0 (by norm_num [dbC7]) _ rfl

theorem processarCliente_notCommitted_id (calcNum : ℚ → ℤ)
    (issue : String → ℤ → List Numero → List Numero) (fs : FailureSpec)
    (cpf : String) (vs : List ℚ) (db : DB)
    (h : (processarCliente calcNum issue fs cpf vs db).committed = false) :
    (processarCliente calcNum issue fs cpf vs db).db = db := by
  rw [processarCliente_db_eq calcNum issue fs cpf vs db]
  simp [h]

theorem processarClienteCancelado_notCommitted_id (fs : FailureSpec) (cpf : String)
    (t : ℚ) (db : DB)
    (h : (processarClienteCancelado fs cpf t db).committed = false) :
    (processarClienteCancelado fs cpf t db).db = db := by
  rw [processarClienteCancelado_db_eq fs cpf t db]
  simp [h]

/-- C6: in either pass, over any number of grouped customers, a customer
whose transaction fails (for any of the failure causes: issuer failure with
a positive count, or a failing balance or flag write, characterised by the
two iff conjuncts) contributes nothing: the pass result equals the fold of
the remaining customers applied to the state already committed by the
earlier ones, so earlier commits stand and the pass continues. -/
theorem c6_pass_failure_containment :
    (∀ (calcNum : ℚ → ℤ) (issue : String → ℤ → List Numero → List Numero)
        (fs : FailureSpec) (cpf : String) (vs : List ℚ) (d : DB),
      (processarCliente calcNum issue fs cpf vs d).committed = false ↔
        (0 < calcNum (lookupSaldo d cpf + vs.sum) ∧ fs.issuerFails = true) ∨
        fs.saldoFails = true ∨ fs.notasFails = true) ∧
    (∀ (fs : FailureSpec) (cpf : String) (t : ℚ) (d : DB),
      (processarClienteCancelado fs cpf t d).committed = false ↔
        (((selecionarNumeros d cpf (cancelCompute (lookupSaldo d cpf) t).1).map
            (fun x => x.num_sorte)) ≠ [] ∧ fs.deleteFails = true) ∨
        fs.saldoFails = true ∨ fs.notasFails = true) ∧
    (∀ (calcNum : ℚ → ℤ) (issue : String → ℤ → List Numero → List Numero)
        (fsm : String → FailureSpec) (db : DB)
        (pre post : List (String × List ℚ)) (gC : String × List ℚ),
      agruparPorCpf (notasValidadasPendentes db) = pre ++ gC :: post →
      (processarCliente calcNum issue (fsm gC.1) gC.1 gC.2
        (pre.foldl (fun d h => (processarCliente calcNum issue (fsm h.1) h.1 h.2 d).db)
          db)).committed = false →
      processarNotasValidadas calcNum issue fsm true db
        = post.foldl (fun d h => (processarCliente calcNum issue (fsm h.1) h.1 h.2 d).db)
            (pre.foldl (fun d h => (processarCliente calcNum issue (fsm h.1) h.1 h.2 d).db)
              db)) ∧
    (∀ (fsm : String → FailureSpec) (db : DB)
        (pre post : List (String × ℚ)) (gC : String × ℚ),
      agruparSomaPorCpf (notasCanceladasPendentes db) = pre ++ gC :: post →
      (processarClienteCancelado (fsm gC.1) gC.1 gC.2
        (pre.foldl (fun d h => (processarClienteCancelado (fsm h.1) h.1 h.2 d).db)
          db)).committed = false →
      processarNotasCanceladas fsm true db
        = post.foldl (fun d h => (processarClienteCancelado (fsm h.1) h.1 h.2 d).db)
            (pre.foldl (fun d h => (processarClienteCancelado (fsm h.1) h.1 h.2 d).db)
              db)) := by
  refine ⟨?_, ?_, ?_, ?_⟩
  · intro calcNum issue fs cpf vs d
    rw [← Bool.not_eq_true, processarCliente_committed_iff]
    have hb1 : (fs.saldoFails = false) ↔ ¬(fs.saldoFails = true) := by simp
    have hb2 : (fs.notasFails = false) ↔ ¬(fs.notasFails = true) := by simp
    rw [hb1, hb2]
    tauto
  · intro fs cpf t d
    rw [← Bool.not_eq_true, processarClienteCancelado_committed_iff]
    have hb1 : (fs.saldoFails = false) ↔ ¬(fs.saldoFails = true) := by simp
    have hb2 : (fs.notasFails = false) ↔ ¬(fs.notasFails = true) := by simp
    rw [hb1, hb2]
    tauto
  · intro calcNum issue fsm db pre post gC hgroups hfail
    have hpend : notasValidadasPendentes db ≠ [] := by
      intro h0
      rw [h0] at hgroups
      simp [agruparPorCpf] at hgroups
    unfold processarNotasValidadas
    simp only [show (true = false) = False from by simp, if_false]
    rw [if_neg hpend, hgroups, List.foldl_append]
    simp only [List.foldl_cons]
    rw [processarCliente_notCommitted_id calcNum issue (fsm gC.1) gC.1 gC.2 _ hfail]
  · intro fsm db pre post gC hgroups hfail
    have hgrupos : agruparSomaPorCpf (notasCanceladasPendentes db) ≠ [] := by
      rw [hgroups]
      simp
    unfold processarNotasCanceladas
    simp only [show (true = false) = False from by simp, if_false]
    rw [if_neg hgrupos, hgroups, List.foldl_append]
    simp only [List.foldl_cons]
    rw [processarClienteCancelado_notCommitted_id (fsm gC.1) gC.1 gC.2 _ hfail]

/-- Failure specification in which the ticket issuer reports failure. -/
def fsIssuerFail : FailureSpec := ⟨true, false, false, false⟩

/-- Failure specification in which the invoice-flag update reports failure. -/
def fsNotasFail : FailureSpec := ⟨false, false, true, false⟩

/-- Per-cpf failure specification: the issuer fails for customer B only. -/
def fsmC6v : String → FailureSpec := fun cpf => if cpf = "B" then fsIssuerFail else noFail

/-- Per-cpf failure specification: the flag write fails for customer D only. -/
def fsmC6c : String → FailureSpec := fun cpf => if cpf = "D" then fsNotasFail else noFail

def dbC6v : DB :=
  { clientes := [("A", some 15), ("B", some 3), ("C", some 1)],
    notas := [⟨"A", 10, 1, true⟩, ⟨"B", 8, 1, true⟩, ⟨"C", 25, 1, true⟩],
    numeros := [] }

def dbC6c : DB :=
  { clientes := [("D", some 5), ("E", some 5)],
    notas := [⟨"D", 12, 3, true⟩, ⟨"E", 12, 3, true⟩],
    numeros := [] }

/-- C6 witness: a three-customer validated pass with an issuer failure in
the middle, and a two-customer cancellation pass with a flag-write failure
first; in both, the pass equals the fold of the other customers. -/
theorem c6_witness :
    processarNotasValidadas calcW issueW fsmC6v true dbC6v
      = ([("C", [25])] : List (String × List ℚ)).foldl
          (fun d h => (processarCliente calcW issueW (fsmC6v h.1) h.1 h.2 d).db)
          (([("A", [10])] : List (String × List ℚ)).foldl
            (fun d h => (processarCliente calcW issueW (fsmC6v h.1) h.1 h.2 d).db) dbC6v) ∧
    processarNotasCanceladas fsmC6c true dbC6c
      = ([("E", (12 : ℚ))] : List (String × ℚ)).foldl
          (fun d h => (processarClienteCancelado (fsmC6c h.1) h.1 h.2 d).db)
          (([] : List (String × ℚ)).foldl
            (fun d h => (processarClienteCancelado (fsmC6c h.1) h.1 h.2 d).db) dbC6c) := by
  have h := c6_pass_failure_containment
  constructor
  · apply h.2.2.1 calcW issueW fsmC6v dbC6v [("A", [10])] [("C", [25])] ("B", [8])
    · simp [notasValidadasPendentes, dbC6v, agruparPorCpf]
    · apply (h.1 calcW issueW (fsmC6v "B") "B" [8] _).mpr
      left
      exact ⟨by norm_num [calcW], by simp [fsmC6v, fsIssuerFail]⟩
  · apply h.2.2.2 fsmC6c dbC6c [] [("E", 12)] ("D", 12)
    · simp [notasCanceladasPendentes, dbC6c, agruparSomaPorCpf, agruparPorCpf]
    · apply (h.2.1 (fsmC6c "D") "D" 12 _).mpr
      right
      right
      simp [fsmC6c, fsNotasFail]

end Sorteio
